import Mathlib

/-!
# Shallow embedding of the `decis` registry (src/src/lib.rs)

The Rust source is a small in-memory registry of decision records.  We embed
it shallowly: `HashSet<String>` becomes `Finset String`, `HashMap<Uuid,
Question>` becomes an association list with a lookup function, `&mut self`
methods become state-passing functions returning the result together with the
new state, and `&self` methods return the (necessarily unchanged) state.
-/

namespace Decis

/-- Model of the external `uuid` crate's `Uuid` type as used by the code: a
value with a string rendering (`Uuid::to_string`) and a string parser
(`Uuid::from_str`) that inverts the rendering and rejects every string that is
not a rendering.  The crate is a library dependency, not repository code, so
only these properties are modelled; freshness of `Uuid::new_v4` is not. -/
structure Uuid where
  val : Nat
  deriving DecidableEq

/-- `Uuid::to_string`: renders the identifier as a string. -/
def Uuid.toString (u : Uuid) : String := String.mk (List.replicate u.val 'u')

/-- Character-list worker for `Uuid.fromStr`: accepts exactly the strings
consisting of `u.val` copies of the letter used by the rendering. -/
def parseUuidChars : List Char → Option Nat
  | [] => some 0
  | c :: cs => if c = 'u' then (parseUuidChars cs).map (· + 1) else none

/-- `Uuid::from_str`: parses an identifier string, `none` on malformed input. -/
def Uuid.fromStr (s : String) : Option Uuid := (parseUuidChars s.data).map Uuid.mk

instance {ε α : Type} [DecidableEq ε] [DecidableEq α] : DecidableEq (Except ε α) := fun x y =>
  match x, y with
  | Except.ok a, Except.ok b =>
      if h : a = b then isTrue (by rw [h]) else isFalse (fun hh => h (Except.ok.inj hh))
  | Except.ok _, Except.error _ => isFalse (fun hh => Except.noConfusion hh)
  | Except.error _, Except.ok _ => isFalse (fun hh => Except.noConfusion hh)
  | Except.error e, Except.error f =>
      if h : e = f then isTrue (by rw [h]) else isFalse (fun hh => h (Except.error.inj hh))

/-- `Decision` (src/src/lib.rs:5-10). -/
structure Decision where
  choice : String
  rationale : String
  decision_makers : Finset String
  deriving DecidableEq

/-- `Question` (src/src/lib.rs:12-20). -/
structure Question where
  identifier : Uuid
  content : String
  tags : Finset String
  context : Finset String
  options : Finset String
  decision : Option Decision
  deriving DecidableEq

/-- `SetDecisionError` (src/src/lib.rs:22-24). -/
inductive SetDecisionError where
  | AlreadyExists
  deriving DecidableEq

/-- `Question::new` (src/src/lib.rs:27-36).  The source draws a fresh random
identifier from `Uuid::new_v4`; the embedding takes it as a parameter. -/
def Question.new (identifier : Uuid) (content : String)
    (tags context options : Finset String) : Question :=
  { identifier := identifier, content := content, tags := tags,
    context := context, options := options, decision := none }

/-- `Question::add_context` (src/src/lib.rs:38-40). -/
def Question.add_context (q : Question) (context_item : String) : Question :=
  { q with context := insert context_item q.context }

/-- `Question::get_context` (src/src/lib.rs:42-44). -/
def Question.get_context (q : Question) : Finset String := q.context

/-- `Question::add_option` (src/src/lib.rs:46-48). -/
def Question.add_option (q : Question) (option_item : String) : Question :=
  { q with options := insert option_item q.options }

/-- `Question::get_options` (src/src/lib.rs:50-52). -/
def Question.get_options (q : Question) : Finset String := q.options

/-- `Question::set_decision` (src/src/lib.rs:54-62): returns the `Result`
together with the state of the question after the call. -/
def Question.set_decision (q : Question) (decision : Decision) :
    Except SetDecisionError Unit × Question :=
  match q.decision with
  | none => (Except.ok (), { q with decision := some decision })
  | some _ => (Except.error SetDecisionError.AlreadyExists, q)

/-- `Question::get_decision` (src/src/lib.rs:64-66). -/
def Question.get_decision (q : Question) : Option Decision := q.decision

/-- `Registry` (src/src/lib.rs:69-72).  The `HashMap<Uuid, Question>` is
modelled as an association list; `add_question` only ever inserts a binding
whose key is absent, so consing is a faithful model of `HashMap::insert`. -/
structure Registry where
  tags : Finset String
  questions : List (Uuid × Question)
  deriving DecidableEq

/-- `AddTagErrors` (src/src/lib.rs:74-77). -/
inductive AddTagErrors where
  | AlreadyExists
  deriving DecidableEq

/-- `AddQuestionError` (src/src/lib.rs:78-82).  The source carries the
offending tags as a `Vec<String>` filled by iterating the `HashSet`
difference in unspecified order; the embedding carries the set itself. -/
inductive AddQuestionError where
  | AlreadyExists
  | UsesNonExistentTags (tags : Finset String)
  deriving DecidableEq

/-- `GetQuestionError` (src/src/lib.rs:83-87). -/
inductive GetQuestionError where
  | InvalidUUID
  | DoesNotExist
  deriving DecidableEq

/-- `HashMap::get`/`contains_key` on the questions collection, modelled on the
association list. -/
def findQuestion (uuid : Uuid) : List (Uuid × Question) → Option Question
  | [] => none
  | (k, v) :: rest => if k = uuid then some v else findQuestion uuid rest

/-- `Registry::new` (src/src/lib.rs:90-95). -/
def Registry.new : Registry := { tags := ∅, questions := [] }

/-- `Registry::add_tag` (src/src/lib.rs:97-104). -/
def Registry.add_tag (r : Registry) (tag : String) :
    Except AddTagErrors Bool × Registry :=
  if tag ∈ r.tags then (Except.error AddTagErrors.AlreadyExists, r)
  else (Except.ok true, { r with tags := insert tag r.tags })

/-- `Registry::get_tags` (src/src/lib.rs:106-108). -/
def Registry.get_tags (r : Registry) : Finset String := r.tags

/-- `Registry::add_question` (src/src/lib.rs:110-127). -/
def Registry.add_question (r : Registry) (question : Question) :
    Except AddQuestionError String × Registry :=
  if question.tags \ r.tags ≠ ∅ then
    (Except.error (AddQuestionError.UsesNonExistentTags (question.tags \ r.tags)), r)
  else if (findQuestion question.identifier r.questions).isSome then
    (Except.error AddQuestionError.AlreadyExists, r)
  else
    (Except.ok question.identifier.toString,
      { r with questions := (question.identifier, question) :: r.questions })

/-- `Registry::get_question` (src/src/lib.rs:129-139). -/
def Registry.get_question (r : Registry) (identifier : String) :
    Except GetQuestionError Question :=
  match Uuid.fromStr identifier with
  | some uuid =>
      match findQuestion uuid r.questions with
      | some question => Except.ok question
      | none => Except.error GetQuestionError.DoesNotExist
  | none => Except.error GetQuestionError.InvalidUUID

/-- `Registry::add_question_context` (src/src/lib.rs:141-148).  The receiver
is `&self`, so the registry cannot change: `get_question` hands back a clone,
the `for_each` inserts every element of `new_contexts` into the clone's
context set, and the clone is then dropped.  The embedding returns the
registry state after the call (always the input state). -/
def Registry.add_question_context (r : Registry) (identifier : String)
    (new_contexts : Finset String) : Registry :=
  match r.get_question identifier with
  | Except.ok question =>
      let _dropped : Question := { question with context := question.context ∪ new_contexts }
      r
  | Except.error _ => r

/-- `Registry::add_question_option` (src/src/lib.rs:150-157): same shape as
`add_question_context`, operating on the clone's options set. -/
def Registry.add_question_option (r : Registry) (identifier : String)
    (new_options : Finset String) : Registry :=
  match r.get_question identifier with
  | Except.ok question =>
      let _dropped : Question := { question with options := question.options ∪ new_options }
      r
  | Except.error _ => r

/-- `Registry::set_question_decision` (src/src/lib.rs:159-166).  The source
line reads `match self.get_question {` — it does not compile as committed
(missing `(identifier)` argument, and the two match arms have different
types); the embedding follows the evident intent: look the question up as
`get_question` does, set the decision on the clone, drop the clone.  The
receiver is `&self`, so the registry cannot change either way. -/
def Registry.set_question_decision (r : Registry) (identifier : String)
    (decision : Decision) : Registry :=
  match r.get_question identifier with
  | Except.ok question =>
      let _dropped := question.set_decision decision
      r
  | Except.error _ => r

/-- Key-consistency invariant on the questions collection: every stored
binding maps a key to a question carrying that key as its identifier. -/
def Registry.KeyConsistent (r : Registry) : Prop :=
  ∀ p ∈ r.questions, (p.2 : Question).identifier = p.1

end Decis
namespace Decis

/-! ## Concrete sample values used by witnesses and counterexample runs -/

/-- A question with no tags, used to probe the context/option mutators. -/
def ctxProbeQuestion : Question := Question.new ⟨3⟩ "Pick a color?" ∅ ∅ ∅

/-- The registry obtained by admitting `ctxProbeQuestion` into a fresh registry. -/
def ctxProbeRegistry : Registry := (Registry.new.add_question ctxProbeQuestion).2

/-- A question with no tags and no decision, used to probe `set_question_decision`. -/
def decProbeQuestion : Question := Question.new ⟨4⟩ "Pick a color?" ∅ ∅ ∅

/-- The registry obtained by admitting `decProbeQuestion` into a fresh registry. -/
def decProbeRegistry : Registry := (Registry.new.add_question decProbeQuestion).2

/-- A sample decision value. -/
def redDecision : Decision :=
  { choice := "Red", rationale := "favorite", decision_makers := {"Luke"} }

/-! ## Helper lemmas -/

theorem parseUuidChars_replicate (n : Nat) :
    parseUuidChars (List.replicate n 'u') = some n := by
  induction n with
  | zero => rfl
  | succ n ih => simp [List.replicate, parseUuidChars, ih]

theorem Uuid.fromStr_toString (u : Uuid) : Uuid.fromStr u.toString = some u := by
  cases u with
  | mk v => simp [Uuid.fromStr, Uuid.toString, parseUuidChars_replicate]

theorem findQuestion_cons_self (k : Uuid) (v : Question) (l : List (Uuid × Question)) :
    findQuestion k ((k, v) :: l) = some v := by
  simp [findQuestion]

/-! ## Claim theorems -/

/-- C3: if a question references at least one tag unknown to the registry,
`add_question` fails with `UsesNonExistentTags` carrying exactly the set
difference between the question's tags and the registry's tags, and the
registry is unmutated. -/
theorem add_question_unknown_tags (r : Registry) (q : Question)
    (h : ∃ t ∈ q.tags, t ∉ r.tags) :
    (r.add_question q).1
        = Except.error (AddQuestionError.UsesNonExistentTags (q.tags \ r.tags)) ∧
    (r.add_question q).2 = r := by
  have hne : q.tags \ r.tags ≠ ∅ := by
    obtain ⟨t, ht, hnt⟩ := h
    exact Finset.ne_empty_of_mem (Finset.mem_sdiff.mpr ⟨ht, hnt⟩)
  simp [Registry.add_question, hne]

theorem add_question_unknown_tags_witness :
    (∃ t ∈ (Question.new ⟨1⟩ "c" {"a"} ∅ ∅).tags, t ∉ Registry.new.tags) ∧
    ((Registry.new.add_question (Question.new ⟨1⟩ "c" {"a"} ∅ ∅)).1
        = Except.error (AddQuestionError.UsesNonExistentTags
            ((Question.new ⟨1⟩ "c" {"a"} ∅ ∅).tags \ Registry.new.tags)) ∧
      (Registry.new.add_question (Question.new ⟨1⟩ "c" {"a"} ∅ ∅)).2 = Registry.new) :=
  ⟨by decide, add_question_unknown_tags Registry.new (Question.new ⟨1⟩ "c" {"a"} ∅ ∅) (by decide)⟩

/-- C4: if a question's tags are all known and its identifier is not already a
key in the registry, `add_question` succeeds, returns the identifier rendered
as a string, and `get_question` on that string returns a copy equal to the
question. -/
theorem add_question_roundtrip (r : Registry) (q : Question)
    (hsub : q.tags ⊆ r.tags)
    (hfresh : findQuestion q.identifier r.questions = none) :
    (r.add_question q).1 = Except.ok q.identifier.toString ∧
    (r.add_question q).2.get_question q.identifier.toString = Except.ok q := by
  have hd : q.tags \ r.tags = ∅ := Finset.sdiff_eq_empty_iff_subset.mpr hsub
  constructor
  · simp [Registry.add_question, hd, hfresh]
  · simp [Registry.add_question, hd, hfresh, Registry.get_question,
      Uuid.fromStr_toString, findQuestion_cons_self]

theorem add_question_roundtrip_witness :
    ((Question.new ⟨3⟩ "c" ∅ ∅ ∅).tags ⊆ Registry.new.tags) ∧
    (findQuestion (Question.new ⟨3⟩ "c" ∅ ∅ ∅).identifier Registry.new.questions = none) ∧
    ((Registry.new.add_question (Question.new ⟨3⟩ "c" ∅ ∅ ∅)).1
        = Except.ok (Uuid.toString ⟨3⟩) ∧
      (Registry.new.add_question (Question.new ⟨3⟩ "c" ∅ ∅ ∅)).2.get_question
          (Uuid.toString ⟨3⟩) = Except.ok (Question.new ⟨3⟩ "c" ∅ ∅ ∅)) :=
  ⟨by decide, by decide,
    add_question_roundtrip Registry.new (Question.new ⟨3⟩ "c" ∅ ∅ ∅) (by decide) (by decide)⟩

/-- C5: `Question::set_decision` succeeds exactly when no decision is present;
afterwards `get_decision` returns the new decision, a second set fails with
`AlreadyExists` without mutating the question, and `get_decision` still
returns the first decision. -/
theorem set_decision_write_once (q : Question) (d d' : Decision) :
    (q.decision = none →
      (q.set_decision d).1 = Except.ok () ∧
      (q.set_decision d).2.get_decision = some d ∧
      ((q.set_decision d).2.set_decision d').1 = Except.error SetDecisionError.AlreadyExists ∧
      ((q.set_decision d).2.set_decision d').2.get_decision = some d) ∧
    (∀ d0, q.decision = some d0 →
      (q.set_decision d').1 = Except.error SetDecisionError.AlreadyExists ∧
      (q.set_decision d').2 = q ∧
      (q.set_decision d').2.get_decision = some d0) := by
  cases hq : q.decision <;>
    simp [Question.set_decision, Question.get_decision, hq]

theorem set_decision_write_once_witness :
    ((Question.new ⟨0⟩ "c" ∅ ∅ ∅).decision = none) ∧
    (((Question.new ⟨0⟩ "c" ∅ ∅ ∅).set_decision redDecision).1 = Except.ok () ∧
      ((Question.new ⟨0⟩ "c" ∅ ∅ ∅).set_decision redDecision).2.get_decision
          = some redDecision ∧
      (((Question.new ⟨0⟩ "c" ∅ ∅ ∅).set_decision redDecision).2.set_decision
          { choice := "Blue", rationale := "other", decision_makers := ∅ }).1
          = Except.error SetDecisionError.AlreadyExists ∧
      (((Question.new ⟨0⟩ "c" ∅ ∅ ∅).set_decision redDecision).2.set_decision
          { choice := "Blue", rationale := "other", decision_makers := ∅ }).2.get_decision
          = some redDecision) :=
  ⟨rfl, (set_decision_write_once (Question.new ⟨0⟩ "c" ∅ ∅ ∅) redDecision
    { choice := "Blue", rationale := "other", decision_makers := ∅ }).1 rfl⟩

/-- C6: `get_question` fails with `InvalidUUID` exactly when the identifier
string does not parse, fails with `DoesNotExist` exactly when it parses but no
stored question has that identifier, and otherwise returns the stored
question's current state. -/
theorem get_question_cases (r : Registry) (s : String) :
    (r.get_question s = Except.error GetQuestionError.InvalidUUID ↔ Uuid.fromStr s = none) ∧
    (r.get_question s = Except.error GetQuestionError.DoesNotExist ↔
      ∃ u, Uuid.fromStr s = some u ∧ findQuestion u r.questions = none) ∧
    (∀ u q, Uuid.fromStr s = some u → findQuestion u r.questions = some q →
      r.get_question s = Except.ok q) := by
  cases hu : Uuid.fromStr s with
  | none => simp [Registry.get_question, hu]
  | some u =>
      cases hf : findQuestion u r.questions with
      | none =>
          refine ⟨by simp [Registry.get_question, hu, hf],
            by simp [Registry.get_question, hu, hf], ?_⟩
          rintro u1 q h1 h2
          rw [Option.some.injEq] at h1
          subst h1
          rw [hf] at h2
          exact Option.noConfusion h2
      | some q =>
          refine ⟨by simp [Registry.get_question, hu, hf],
            by simp [Registry.get_question, hu, hf], ?_⟩
          rintro u1 q1 h1 h2
          rw [Option.some.injEq] at h1
          subst h1
          rw [hf, Option.some.injEq] at h2
          subst h2
          simp [Registry.get_question, hu, hf]

theorem get_question_cases_witness :
    Registry.new.get_question "not-a-uuid" = Except.error GetQuestionError.InvalidUUID ∧
    Registry.new.get_question "u" = Except.error GetQuestionError.DoesNotExist ∧
    ctxProbeRegistry.get_question "uuu" = Except.ok ctxProbeQuestion :=
  ⟨(get_question_cases Registry.new "not-a-uuid").1.mpr (by decide),
    (get_question_cases Registry.new "u").2.1.mpr ⟨⟨1⟩, by decide, rfl⟩,
    (get_question_cases ctxProbeRegistry "uuu").2.2 ⟨3⟩ ctxProbeQuestion
      (by decide) (by decide)⟩

/-- C7: adding a fresh tag succeeds and makes `get_tags` contain it; adding it
a second time fails with `AlreadyExists` without mutation, and `get_tags`
still holds exactly one copy of the tag. -/
theorem add_tag_twice (r : Registry) (t : String) (h : t ∉ r.tags) :
    (r.add_tag t).1 = Except.ok true ∧
    t ∈ (r.add_tag t).2.get_tags ∧
    ((r.add_tag t).2.add_tag t).1 = Except.error AddTagErrors.AlreadyExists ∧
    ((r.add_tag t).2.add_tag t).2 = (r.add_tag t).2 ∧
    ((r.add_tag t).2.add_tag t).2.get_tags.val.count t = 1 := by
  have h1 : (r.add_tag t).2 = { r with tags := insert t r.tags } := by
    simp [Registry.add_tag, h]
  have h2 : t ∈ insert t r.tags := Finset.mem_insert_self t r.tags
  refine ⟨by simp [Registry.add_tag, h], ?_, ?_, ?_, ?_⟩
  · rw [h1]; exact h2
  · rw [h1]; simp [Registry.add_tag, h2]
  · rw [h1]; simp [Registry.add_tag, h2]
  · rw [h1]
    simp only [Registry.add_tag, h2, if_pos, Registry.get_tags]
    exact Multiset.count_eq_one_of_mem (Finset.nodup _) (Finset.mem_val.mpr h2)

theorem add_tag_twice_witness :
    ("Something" ∉ Registry.new.tags) ∧
    ((Registry.new.add_tag "Something").1 = Except.ok true ∧
      "Something" ∈ (Registry.new.add_tag "Something").2.get_tags ∧
      ((Registry.new.add_tag "Something").2.add_tag "Something").1
          = Except.error AddTagErrors.AlreadyExists ∧
      ((Registry.new.add_tag "Something").2.add_tag "Something").2
          = (Registry.new.add_tag "Something").2 ∧
      ((Registry.new.add_tag "Something").2.add_tag "Something").2.get_tags.val.count
          "Something" = 1) :=
  ⟨by decide, add_tag_twice Registry.new "Something" (by decide)⟩

/-- C8: when the identifier string fails to resolve (malformed or unknown),
each of the three registry mutation operations is a silent no-op: it returns
no error and leaves the registry unchanged. -/
theorem mutators_silent_on_bad_identifier (r : Registry) (s : String)
    (cs os : Finset String) (d : Decision)
    (h : ∃ e, r.get_question s = Except.error e) :
    r.add_question_context s cs = r ∧
    r.add_question_option s os = r ∧
    r.set_question_decision s d = r := by
  obtain ⟨e, he⟩ := h
  refine ⟨?_, ?_, ?_⟩ <;>
    simp [Registry.add_question_context, Registry.add_question_option,
      Registry.set_question_decision, he]

theorem mutators_silent_on_bad_identifier_witness :
    (∃ e, Registry.new.get_question "not-a-uuid" = Except.error e) ∧
    (Registry.new.add_question_context "not-a-uuid" {"c"} = Registry.new ∧
      Registry.new.add_question_option "not-a-uuid" {"o"} = Registry.new ∧
      Registry.new.set_question_decision "not-a-uuid" redDecision = Registry.new) :=
  ⟨⟨GetQuestionError.InvalidUUID, by decide⟩,
    mutators_silent_on_bad_identifier Registry.new "not-a-uuid" {"c"} {"o"} redDecision
      ⟨GetQuestionError.InvalidUUID, by decide⟩⟩

/-- C9: the question mutators touch only their own field: `add_context` leaves
identifier, content, tags, options and decision unchanged; `add_option` leaves
identifier, content, tags, context and decision unchanged; `set_decision`
leaves identifier, content, tags, context and options unchanged. -/
theorem question_mutators_frame (q : Question) (s : String) (d : Decision) :
    ((q.add_context s).identifier = q.identifier ∧ (q.add_context s).content = q.content ∧
      (q.add_context s).tags = q.tags ∧ (q.add_context s).options = q.options ∧
      (q.add_context s).decision = q.decision) ∧
    ((q.add_option s).identifier = q.identifier ∧ (q.add_option s).content = q.content ∧
      (q.add_option s).tags = q.tags ∧ (q.add_option s).context = q.context ∧
      (q.add_option s).decision = q.decision) ∧
    ((q.set_decision d).2.identifier = q.identifier ∧ (q.set_decision d).2.content = q.content ∧
      (q.set_decision d).2.tags = q.tags ∧ (q.set_decision d).2.context = q.context ∧
      (q.set_decision d).2.options = q.options) := by
  cases hq : q.decision <;>
    simp [Question.add_context, Question.add_option, Question.set_decision, hq]

/-- C10: every binding of the questions collection keys a question by its own
identifier; the invariant holds for the empty registry and is preserved by
every registry operation. -/
theorem key_consistent_invariant :
    Registry.KeyConsistent Registry.new ∧
    ∀ (r : Registry) (t : String) (q : Question) (s : String)
      (cs os : Finset String) (d : Decision), Registry.KeyConsistent r →
        Registry.KeyConsistent (r.add_tag t).2 ∧
        Registry.KeyConsistent (r.add_question q).2 ∧
        Registry.KeyConsistent (r.add_question_context s cs) ∧
        Registry.KeyConsistent (r.add_question_option s os) ∧
        Registry.KeyConsistent (r.set_question_decision s d) := by
  constructor
  · intro p hp
    simp [Registry.new] at hp
  · intro r t q s cs os d hr
    refine ⟨?_, ?_, ?_, ?_, ?_⟩
    · by_cases ht : t ∈ r.tags <;> simp [Registry.add_tag, ht] <;> exact hr
    · by_cases h1 : q.tags \ r.tags ≠ ∅
      · simp [Registry.add_question, h1]; exact hr
      · by_cases h2 : (findQuestion q.identifier r.questions).isSome
        · simp [Registry.add_question, h1, h2]; exact hr
        · simp only [Registry.add_question, h1, h2, if_neg, if_false]
          intro p hp
          rcases List.mem_cons.mp hp with h3 | h3
          · subst h3; rfl
          · exact hr p h3
    · cases hg : r.get_question s <;>
        simp [Registry.add_question_context, hg] <;> exact hr
    · cases hg : r.get_question s <;>
        simp [Registry.add_question_option, hg] <;> exact hr
    · cases hg : r.get_question s <;>
        simp [Registry.set_question_decision, hg] <;> exact hr

theorem key_consistent_invariant_witness :
    Registry.KeyConsistent Registry.new ∧
    (Registry.KeyConsistent (Registry.new.add_tag "t").2 ∧
      Registry.KeyConsistent (Registry.new.add_question ctxProbeQuestion).2 ∧
      Registry.KeyConsistent (Registry.new.add_question_context "uuu" {"c"}) ∧
      Registry.KeyConsistent (Registry.new.add_question_option "uuu" {"o"}) ∧
      Registry.KeyConsistent (Registry.new.set_question_decision "uuu" redDecision)) :=
  ⟨key_consistent_invariant.1,
    key_consistent_invariant.2 Registry.new "t" ctxProbeQuestion "uuu" {"c"} {"o"}
      redDecision (by intro p hp; simp [Registry.new] at hp)⟩

/-- C1 counterexample run: on an admitted question reachable at "uuu",
`add_question_context` and `add_question_option` leave the registry unchanged,
so a subsequent `get_question` still returns the question with its original
(empty) context and options: the source mutates a clone and discards it. -/
theorem add_question_context_noop_on_admitted :
    ctxProbeRegistry.get_question "uuu" = Except.ok ctxProbeQuestion ∧
    ctxProbeRegistry.add_question_context "uuu" {"ctx"} = ctxProbeRegistry ∧
    ctxProbeRegistry.add_question_option "uuu" {"opt"} = ctxProbeRegistry ∧
    (ctxProbeRegistry.add_question_context "uuu" {"ctx"}).get_question "uuu"
        = Except.ok ctxProbeQuestion ∧
    (ctxProbeRegistry.add_question_option "uuu" {"opt"}).get_question "uuu"
        = Except.ok ctxProbeQuestion ∧
    "ctx" ∉ ctxProbeQuestion.context ∧ "opt" ∉ ctxProbeQuestion.options := by
  decide

/-- C2 counterexample run: on an admitted question reachable at "uuuu" with no
decision, `set_question_decision` leaves the registry unchanged, so a
subsequent `get_question` still returns a question with no decision: the
source (which does not even compile as committed) can only mutate a clone. -/
theorem set_question_decision_noop_on_admitted :
    decProbeRegistry.get_question "uuuu" = Except.ok decProbeQuestion ∧
    decProbeRegistry.set_question_decision "uuuu" redDecision = decProbeRegistry ∧
    (decProbeRegistry.set_question_decision "uuuu" redDecision).get_question "uuuu"
        = Except.ok decProbeQuestion ∧
    decProbeQuestion.decision = none := by
  decide

end Decis
